import Mathlib

/-!
Shallow embedding of the application core of the `amp` text editor
(`src/models/application/mod.rs`): the `Mode` state machine, the
`Application` record, session bootstrap from startup arguments
(`create_workspace`), construction (`Application::new`), the render /
error-display coordination (`render`, `render_error`) and the event loop
(`run`, `wait_for_event`, `mode_str`).

External collaborators (the `scribe` workspace crate, the terminal view,
presenters, the command dispatch, git discovery, the preferences store and
the filesystem) are modelled as explicit environments of fallible
functions, so every theorem quantifies over their behaviour.
-/

namespace Amp

/-- Model of a key descriptor delivered by the input driver (the external
`termion` key type carried by `Event::Key`). -/
structure KeyInput where
  code : Nat
deriving DecidableEq

/-- Model of the completed path index handed to Open mode by the background
indexing task (`Event::OpenModeIndexComplete`); the index is the set of
candidate paths enumerated for fuzzy search. -/
structure Index where
  paths : List String
deriving DecidableEq

/-- Events consumed by the run loop, from `event.rs`: key input, terminal
resize, and completion of background directory indexing. -/
inductive Event where
  | Key (k : KeyInput)
  | Resize
  | OpenModeIndexComplete (index : Index)
deriving DecidableEq

/-- Modelled from the spec: clipboard content is "a small closed set of
shapes (empty, single-line text, block text)"; the `clipboard.rs` module is
not part of the given sources. `Clipboard::new` yields the empty shape. -/
inductive ClipboardContent where
  | Empty
  | Inline (s : String)
  | Block (lines : List String)
deriving DecidableEq

/-- Model of a handle to a discovered version-control repository (the
external `git2::Repository`); only its presence or absence matters to the
core. -/
structure Repository where
  root : String
deriving DecidableEq

/-- Model of the loaded preferences snapshot (the `preferences.rs` module is
an excluded collaborator); only the fact that a snapshot exists matters to
the core, so it is reduced to its optional theme override. -/
structure Preferences where
  theme_override : Option String
deriving DecidableEq

/-- `Preferences::new(None)`: the built-in default snapshot used when the
persisted preferences cannot be loaded. -/
def Preferences.new (theme_override : Option String) : Preferences :=
  { theme_override }

/-- Model of a `scribe::Buffer`: one open file's text content and its
associated optional path. -/
structure Buffer where
  path : Option String
  data : String
deriving DecidableEq

/-- Model of a `scribe::Workspace` (the Session): the resolved root
directory, the ordered open buffers, and the index of the buffer marked
current. -/
structure Workspace where
  path : String
  buffers : List Buffer
  current : Option Nat
deriving DecidableEq

/-- `Workspace::add_buffer`, per the Session contract: the buffer is
appended and becomes the current buffer. -/
def Workspace.add_buffer (ws : Workspace) (b : Buffer) : Workspace :=
  { ws with buffers := ws.buffers ++ [b], current := some ws.buffers.length }

/-- `Workspace::current_buffer`: look up the buffer marked current. -/
def Workspace.current_buffer (ws : Workspace) : Option Buffer :=
  match ws.current with
  | some i => ws.buffers[i]?
  | none => none

/-- Modelled from the spec: the Confirm mode payload (its module
`modes/confirm` is not part of the given sources); it carries mode-specific
state the core never inspects, reduced to an opaque tag. -/
structure ConfirmMode where
  state : Nat
deriving DecidableEq

/-- Modelled from the spec: the Command mode payload. The core only queries
whether the mode is accepting free-text input (`insert_mode()`). -/
structure CommandMode where
  insert_mode : Bool
deriving DecidableEq

/-- Modelled from the spec: the Jump mode payload, reduced to an opaque
tag. -/
structure JumpMode where
  state : Nat
deriving DecidableEq

/-- Modelled from the spec: the LineJump mode payload, reduced to an opaque
tag. -/
structure LineJumpMode where
  state : Nat
deriving DecidableEq

/-- Modelled from the spec: the Path mode payload, reduced to an opaque
tag. -/
structure PathMode where
  state : Nat
deriving DecidableEq

/-- Modelled from the spec: the Open mode payload (module `modes/open` is
not part of the given sources): whether it is accepting free-text input,
the optional completed index, the query typed so far, and the current
search results. -/
structure OpenMode where
  insert_mode : Bool
  index : Option Index
  query : String
  results : List String
deriving DecidableEq

/-- Modelled from the spec: `OpenMode::set_index` installs the completed
index into the mode's state. -/
def OpenMode.set_index (m : OpenMode) (i : Index) : OpenMode :=
  { m with index := some i }

/-- Modelled from the spec: `OpenMode::search` re-runs the search over the
installed index using whatever query was typed while indexing was in
flight (the matching function itself is a non-goal of the spec). -/
def OpenMode.search (m : OpenMode) : OpenMode :=
  { m with results :=
      match m.index with
      | some i => i.paths.filter (fun p => p.startsWith m.query)
      | none => [] }

/-- Modelled from the spec: the Select mode payload, reduced to an opaque
tag. -/
structure SelectMode where
  state : Nat
deriving DecidableEq

/-- Modelled from the spec: the SelectLine mode payload, reduced to an
opaque tag. -/
structure SelectLineMode where
  state : Nat
deriving DecidableEq

/-- Modelled from the spec: the Search mode payload; the core only queries
whether it is accepting free-text input. -/
structure SearchMode where
  insert_mode : Bool
deriving DecidableEq

/-- Modelled from the spec: the SymbolJump mode payload; the core only
queries whether it is accepting free-text input. -/
structure SymbolJumpMode where
  insert_mode : Bool
deriving DecidableEq

/-- Modelled from the spec: the Theme mode payload; the core only queries
whether it is accepting free-text input. -/
structure ThemeMode where
  insert_mode : Bool
deriving DecidableEq

/-- The closed `Mode` union of `mod.rs`: exactly one variant is active at a
time; `Exit` is the terminal variant. -/
inductive Mode where
  | Confirm (m : ConfirmMode)
  | Command (m : CommandMode)
  | Exit
  | Insert
  | Jump (m : JumpMode)
  | LineJump (m : LineJumpMode)
  | Path (m : PathMode)
  | Normal
  | Open (m : OpenMode)
  | Select (m : SelectMode)
  | SelectLine (m : SelectLineMode)
  | Search (m : SearchMode)
  | SymbolJump (m : SymbolJumpMode)
  | Theme (m : ThemeMode)
deriving DecidableEq

/-- Whether the active mode is the Open mode (the only variant that
consumes an `OpenModeIndexComplete` event). -/
def Mode.is_open : Mode → Bool
  | Mode.Open _ => true
  | _ => false

/-- The slice of the view the core mutates directly: `View::last_key`,
recorded on every key event for key-hint display. -/
structure ViewState where
  last_key : Option KeyInput
deriving DecidableEq

/-- The `Application` record of `mod.rs`: the active mode, the session
workspace, the saved search query, the view state, the clipboard, the
optional repository handle, the pending error and the preferences
snapshot. The event channel is modelled as the list of events fed to
`run`. -/
structure Application where
  mode : Mode
  workspace : Workspace
  search_query : Option String
  view : ViewState
  clipboard : ClipboardContent
  repository : Option Repository
  error : Option String
  preferences : Preferences
deriving DecidableEq

/-- Snapshot of the filesystem as `create_workspace` queries it: the
initial working directory and the `Path::is_dir` / `Path::is_file` /
`Path::canonicalize` primitives (canonicalize is fallible). -/
structure FS where
  cwd : String
  is_dir : String → Bool
  is_file : String → Bool
  canonicalize : String → Except String String

/-- `Path::is_absolute`, for Unix paths: the path starts with the root
separator. -/
def is_absolute (p : String) : Bool :=
  p.data.head? == some '/'

/-- `Path::join` of a workspace root with a relative path argument. -/
def path_join (base p : String) : String :=
  base ++ ("/") ++ p

/-- Environment of the fallible collaborator calls `create_workspace`
makes: `Workspace::new`, `Preferences::syntax_path`,
`SyntaxSet::load_syntaxes`, `Buffer::from_file` and
`View::initialize_buffer`. -/
structure BootEnv where
  fs : FS
  workspace_new : Except String Unit
  syntax_path : Except String String
  load_syntaxes : String → Except String Unit
  from_file : String → Except String Buffer
  init_buffer : Buffer → Except String Unit

/-- Trace of the collaborator calls session bootstrap performs, in program
order: syntax loading and linking, and per-argument buffer creation
(`from_file` for an existing file, `new_buffer` for a missing one,
recording both the raw argument and the resolved buffer path), appending
and view initialization. -/
inductive BootCall where
  | load_syntaxes_call
  | link_syntaxes_call
  | from_file_call (arg : String)
  | new_buffer_call (arg : String) (target : String)
  | add_buffer_call
  | init_buffer_call
deriving DecidableEq

/-- Whether a bootstrap call is a buffer operation (anything other than the
two syntax-set calls). -/
def BootCall.buffer_op : BootCall → Bool
  | BootCall.load_syntaxes_call => false
  | BootCall.link_syntaxes_call => false
  | _ => true

/-- The buffer `create_workspace` builds for one file argument: open the
path via `Buffer::from_file` if it exists, else a fresh empty buffer whose
path is the argument absolutized against the workspace root. Returns the
buffer together with the trace entry recording the choice. -/
def arg_buffer (env : BootEnv) (root : String) (p : String) :
    Except String (Buffer × BootCall) :=
  if env.fs.is_dir p || env.fs.is_file p then
    match env.from_file p with
    | Except.ok b => Except.ok (b, BootCall.from_file_call p)
    | Except.error e => Except.error e
  else
    let bpath := if is_absolute p then p else path_join root p
    Except.ok ({ path := some bpath, data := "" }, BootCall.new_buffer_call p bpath)

/-- The file-argument loop of `create_workspace` (lines 272–295 of
`mod.rs`): skip directories, open or create a buffer for every other
argument, append it to the workspace and ask the view to initialize it
(`workspace.current_buffer().unwrap()` is modelled by the match on
`current_buffer`, erroring on the unreachable `none`). -/
def open_file_args (env : BootEnv) (ws : Workspace) (tr : List BootCall) :
    List String → Except String (Workspace × List BootCall)
  | [] => Except.ok (ws, tr)
  | p :: rest =>
    if env.fs.is_dir p then
      open_file_args env ws tr rest
    else
      match arg_buffer env ws.path p with
      | Except.error e => Except.error e
      | Except.ok (b, call) =>
        match (ws.add_buffer b).current_buffer with
        | none => Except.error ("called unwrap on a None value")
        | some cb =>
          match env.init_buffer cb with
          | Except.error e => Except.error e
          | Except.ok _ =>
            open_file_args env (ws.add_buffer b)
              (tr ++ [call, BootCall.add_buffer_call, BootCall.init_buffer_call]) rest

/-- The chdir step of `create_workspace` (lines 244–251): if the first
remaining argument names an existing directory, the working directory
becomes its canonicalized form, otherwise it stays the initial one. -/
def chdir_target (env : BootEnv) (path_args : List String) : Except String String :=
  match path_args.head? with
  | some arg => if env.fs.is_dir arg then env.fs.canonicalize arg else Except.ok env.fs.cwd
  | none => Except.ok env.fs.cwd

/-- `create_workspace` (lines 239–298 of `mod.rs`): drop the executable
argument, optionally chdir into a first directory argument, create the
workspace at the resulting directory, load and link user syntax
definitions (a load failure is rephrased and propagated), skip the first
argument again if it was consumed as a directory, then process the file
arguments. -/
def create_workspace (env : BootEnv) (args : List String) :
    Except String (Workspace × List BootCall) :=
  let path_args := args.drop 1
  let initial_dir := env.fs.cwd
  match chdir_target env path_args with
  | Except.error e => Except.error e
  | Except.ok workspace_dir =>
    match env.workspace_new with
    | Except.error e => Except.error e
    | Except.ok _ =>
      match env.syntax_path with
      | Except.error e => Except.error e
      | Except.ok sp =>
        match env.load_syntaxes sp with
        | Except.error e => Except.error ("Failed to load user syntaxes: " ++ e)
        | Except.ok _ =>
          let ws : Workspace := { path := workspace_dir, buffers := [], current := none }
          let tr := [BootCall.load_syntaxes_call, BootCall.link_syntaxes_call]
          let file_args := if workspace_dir ≠ initial_dir then path_args.drop 1 else path_args
          open_file_args env ws tr file_args

/-- Environment of the collaborator calls `Application::new` makes:
`Preferences::load`, `View::new`, the bootstrap environment, the
`env::current_dir()` query made while assembling the record (fallible,
its failure propagates out of construction), and `Repository::discover`
applied to the queried directory. -/
structure AppEnv where
  load_preferences : Except String Preferences
  view_new : Except String Unit
  boot : BootEnv
  current_dir : Except String String
  discover_repository : String → Except String Repository

/-- `initialize_preferences` (lines 233–237): the persisted preferences,
falling back to the built-in defaults when loading fails — loading never
fails construction. -/
def init_preferences (env : AppEnv) : Preferences :=
  match env.load_preferences with
  | Except.ok p => p
  | Except.error _ => Preferences.new none

/-- `Application::new` (lines 57–80): load preferences (infallibly, with
fallback), construct the view (fallible), the clipboard, and the workspace
(fallible), then assemble the core with mode Normal and no pending error.
The repository field is `Repository::discover(&env::current_dir()?).ok()`:
the working-directory query's `?` is a further failure source of
construction, while a failed discovery itself is degraded by `.ok()` to an
absent handle. -/
def Application.new (env : AppEnv) (args : List String) : Except String Application :=
  let preferences := init_preferences env
  match env.view_new with
  | Except.error e => Except.error e
  | Except.ok _ =>
    match create_workspace env.boot args with
    | Except.error e => Except.error e
    | Except.ok (workspace, _) =>
      match env.current_dir with
      | Except.error e => Except.error e
      | Except.ok d =>
        Except.ok
          { mode := Mode.Normal
            workspace := workspace
            search_query := none
            view := { last_key := none }
            clipboard := ClipboardContent.Empty
            repository := (env.discover_repository d).toOption
            error := none
            preferences := preferences }

/-- Outcomes of the presenter calls `present` dispatches to, one per
presenter module (`presenters::modes::*::display`); each either draws
successfully or returns a drawing failure. -/
structure PresenterEnv where
  confirm : Except String Unit
  search_select : Except String Unit
  insert : Except String Unit
  search : Except String Unit
  jump : Except String Unit
  line_jump : Except String Unit
  path : Except String Unit
  select : Except String Unit
  select_line : Except String Unit
  normal : Except String Unit
  theme : Except String Unit

/-- `Application::present` (lines 104–147): dispatch the active mode to its
presenter; Command, Open, SymbolJump and Theme share the search-select
presenter, and Exit draws nothing and always succeeds. -/
def Application.present (penv : PresenterEnv) (app : Application) : Except String Unit :=
  match app.mode with
  | Mode.Confirm _ => penv.confirm
  | Mode.Command _ => penv.search_select
  | Mode.Insert => penv.insert
  | Mode.Open _ => penv.search_select
  | Mode.Search _ => penv.search
  | Mode.Jump _ => penv.jump
  | Mode.LineJump _ => penv.line_jump
  | Mode.Path _ => penv.path
  | Mode.SymbolJump _ => penv.search_select
  | Mode.Select _ => penv.select
  | Mode.SelectLine _ => penv.select_line
  | Mode.Normal => penv.normal
  | Mode.Theme _ => penv.theme
  | Mode.Exit => Except.ok ()

/-- Observable outcome of one render: either a frame was drawn with an
optional error shown in the status line, or the process aborted (the
`unwrap()` panic in `render_error`). -/
inductive RenderResult where
  | drew (shown : Option String)
  | panicked
deriving DecidableEq

/-- `render_error` (lines 214–231): build a presenter via
`view.build_presenter().unwrap()` — a panic when building fails — and
display the error in the status line. `build_presenter` is the fallible
collaborator argument. -/
def render_error (build_presenter : Except String Unit) (e : String) : RenderResult :=
  match build_presenter with
  | Except.ok _ => RenderResult.drew (some e)
  | Except.error _ => RenderResult.panicked

/-- `Application::render` (lines 95–102): attempt to draw the active mode;
on a drawing failure display that failure, otherwise display the pending
error from the previous command invocation if one exists. -/
def Application.render (penv : PresenterEnv) (build_presenter : Except String Unit)
    (app : Application) : RenderResult :=
  match Application.present penv app with
  | Except.error e => render_error build_presenter e
  | Except.ok _ =>
    match app.error with
    | some e => render_error build_presenter e
    | none => RenderResult.drew none

/-- `Application::wait_for_event` (lines 149–172), given one received
event. A key event records the last key on the view and hands the whole
application to the external command dispatch `handle_input`, whose failure
(or success) overwrites the pending error; a resize does nothing; an
indexing completion installs the index and re-runs the search when the
active mode is Open, and is silently discarded otherwise. -/
def Application.wait_for_event (handle_input : Application → Application × Option String)
    (app : Application) (event : Event) : Application :=
  match event with
  | Event.Key k =>
    let prepared : Application := { app with view := { last_key := some k } }
    let handled := handle_input prepared
    { handled.fst with error := handled.snd }
  | Event.Resize => app
  | Event.OpenModeIndexComplete index =>
    match app.mode with
    | Mode.Open open_mode =>
      { app with mode := Mode.Open (OpenMode.search (OpenMode.set_index open_mode index)) }
    | _ => app

/-- `Application::run` (lines 82–93) over the queued events: process one
event per iteration and stop as soon as the mode check observes Exit,
returning the final state and the unconsumed events; an empty queue models
a failed `recv` and propagates its error. The render call of each
iteration only draws and does not change the routed state, so it does not
appear in the loop state. -/
def Application.run (handle_input : Application → Application × Option String)
    (app : Application) : List Event → Except String (Application × List Event)
  | [] => Except.error ("Error receiving application event")
  | e :: rest =>
    let app' := Application.wait_for_event handle_input app e
    match app'.mode with
    | Mode.Exit => Except.ok (app', rest)
    | _ => Application.run handle_input app' rest

/-- `Application::mode_str` (lines 174–211): the stable human-readable
label of the active mode, `none` for Exit; the search-select modes and
Search pick their label from `insert_mode()`. -/
def Application.mode_str (app : Application) : Option String :=
  match app.mode with
  | Mode.Command m =>
    if m.insert_mode then some ("search_select_insert") else some ("search_select")
  | Mode.SymbolJump m =>
    if m.insert_mode then some ("search_select_insert") else some ("search_select")
  | Mode.Open m =>
    if m.insert_mode then some ("search_select_insert") else some ("search_select")
  | Mode.Theme m =>
    if m.insert_mode then some ("search_select_insert") else some ("search_select")
  | Mode.Normal => some ("normal")
  | Mode.Path _ => some ("path")
  | Mode.Confirm _ => some ("confirm")
  | Mode.Insert => some ("insert")
  | Mode.Jump _ => some ("jump")
  | Mode.LineJump _ => some ("line_jump")
  | Mode.Select _ => some ("select")
  | Mode.SelectLine _ => some ("select_line")
  | Mode.Search m =>
    if m.insert_mode then some ("search_insert") else some ("search")
  | Mode.Exit => none

/-- Command dispatch that succeeds and changes nothing (a concrete
`handle_input` instance). -/
def handle_noop : Application → Application × Option String :=
  fun a => (a, none)

/-- Command dispatch that switches the mode to Exit and succeeds (a
concrete `handle_input` instance, like the `application::exit` command). -/
def handle_exit : Application → Application × Option String :=
  fun a => ({ a with mode := Mode.Exit }, none)

/-- A concrete empty workspace rooted at "r". -/
def ws0 : Workspace :=
  { path := "r", buffers := [], current := none }

/-- A concrete application state in Normal mode with no pending error. -/
def app0 : Application :=
  { mode := Mode.Normal
    workspace := ws0
    search_query := none
    view := { last_key := none }
    clipboard := ClipboardContent.Empty
    repository := none
    error := none
    preferences := Preferences.new none }

/-- A concrete application state with a pending event-handling error. -/
def app_err : Application :=
  { app0 with error := some ("boom") }

/-- A concrete filesystem snapshot: working directory "h", a single
existing directory "d", no existing files, canonicalization the
identity. -/
def fs0 : FS :=
  { cwd := "h"
    is_dir := fun p => p == ("d")
    is_file := fun _ => false
    canonicalize := fun p => Except.ok p }

/-- A concrete bootstrap environment over `fs0` in which every
collaborator call succeeds. -/
def boot0 : BootEnv :=
  { fs := fs0
    workspace_new := Except.ok ()
    syntax_path := Except.ok ("s")
    load_syntaxes := fun _ => Except.ok ()
    from_file := fun p => Except.ok { path := some p, data := "x" }
    init_buffer := fun _ => Except.ok () }

/-- A concrete bootstrap environment whose syntax-definition load fails. -/
def boot_bad_syntaxes : BootEnv :=
  { boot0 with load_syntaxes := fun _ => Except.error ("corrupt") }

/-- A concrete construction environment in which preferences loading and
repository discovery fail but the view, the workspace and the
working-directory query succeed. -/
def env0 : AppEnv :=
  { load_preferences := Except.error ("no prefs file")
    view_new := Except.ok ()
    boot := boot0
    current_dir := Except.ok ("h")
    discover_repository := fun _ => Except.error ("no repository") }

/-- A concrete construction environment identical to `env0` except that
the working-directory query fails. -/
def env_cwd_fail : AppEnv :=
  { env0 with current_dir := Except.error ("getcwd failed") }

/-- A concrete presenter environment in which every presenter draws
successfully. -/
def penv_ok : PresenterEnv :=
  { confirm := Except.ok ()
    search_select := Except.ok ()
    insert := Except.ok ()
    search := Except.ok ()
    jump := Except.ok ()
    line_jump := Except.ok ()
    path := Except.ok ()
    select := Except.ok ()
    select_line := Except.ok ()
    normal := Except.ok ()
    theme := Except.ok () }

/-- A concrete presenter environment whose Normal-mode presenter fails. -/
def penv_bad_normal : PresenterEnv :=
  { penv_ok with normal := Except.error ("draw failed") }

/-- Whether a bootstrap call processes the given string as a file argument
(opening it or creating a buffer targeting it). -/
def call_for_arg (a : String) : BootCall → Bool
  | BootCall.from_file_call p => p == a
  | BootCall.new_buffer_call p _ => p == a
  | _ => false

/-- Whether a bootstrap trace contains no buffer request for the given
argument. -/
def avoids_arg (a : String) (tr : List BootCall) : Bool :=
  tr.all fun c => !(call_for_arg a c)

/-- Appending a buffer marks it current. -/
theorem add_buffer_current (ws : Workspace) (b : Buffer) :
    (ws.add_buffer b).current_buffer = some b := by
  simp [Workspace.add_buffer, Workspace.current_buffer]

/-- The file-argument loop never changes the workspace root. -/
theorem open_file_args_root (env : BootEnv) (l : List String) :
    ∀ ws tr ws' tr', open_file_args env ws tr l = Except.ok (ws', tr') →
      ws'.path = ws.path := by
  induction l with
  | nil =>
    intro ws tr ws' tr' h
    rw [open_file_args] at h
    cases h
    rfl
  | cons p rest ih =>
    intro ws tr ws' tr' h
    rw [open_file_args] at h
    split at h
    · exact ih ws tr ws' tr' h
    · split at h
      · simp at h
      · split at h
        · simp at h
        · split at h
          · simp at h
          · exact (ih _ _ ws' tr' h).trans rfl

/-- The file-argument loop only appends buffer operations to the trace. -/
theorem open_file_args_trace (env : BootEnv) (l : List String) :
    ∀ ws tr ws' tr', open_file_args env ws tr l = Except.ok (ws', tr') →
      ∃ d, tr' = tr ++ d ∧ ∀ x ∈ d, BootCall.buffer_op x = true := by
  induction l with
  | nil =>
    intro ws tr ws' tr' h
    rw [open_file_args] at h
    cases h
    exact ⟨[], by simp⟩
  | cons p rest ih =>
    intro ws tr ws' tr' h
    rw [open_file_args] at h
    split at h
    · exact ih ws tr ws' tr' h
    · split at h
      · simp at h
      next b call hab =>
        split at h
        · simp at h
        · split at h
          · simp at h
          · obtain ⟨d, hd, hall⟩ := ih _ _ ws' tr' h
            refine ⟨[call, BootCall.add_buffer_call, BootCall.init_buffer_call] ++ d,
              by simpa using hd, ?_⟩
            intro x hx
            have hcall : BootCall.buffer_op call = true := by
              unfold arg_buffer at hab
              split at hab
              · split at hab
                · cases hab; rfl
                · simp at hab
              · cases hab; rfl
            rcases List.mem_append.mp hx with hx | hx
            · have hx' : x = call ∨ x = BootCall.add_buffer_call
                  ∨ x = BootCall.init_buffer_call := by simpa using hx
              rcases hx' with rfl | rfl | rfl
              · exact hcall
              · rfl
              · rfl
            · exact hall x hx

/-- Processing an argument that names an existing directory adds no buffer
request for it to the trace. -/
theorem open_file_args_avoids (env : BootEnv) (a : String)
    (ha : env.fs.is_dir a = true) (l : List String) :
    ∀ ws tr ws' tr', open_file_args env ws tr l = Except.ok (ws', tr') →
      avoids_arg a tr = true → avoids_arg a tr' = true := by
  induction l with
  | nil =>
    intro ws tr ws' tr' h hav
    rw [open_file_args] at h
    cases h
    exact hav
  | cons p rest ih =>
    intro ws tr ws' tr' h hav
    rw [open_file_args] at h
    split at h
    · exact ih ws tr ws' tr' h hav
    next hdir =>
      split at h
      · simp at h
      next b call hab =>
        split at h
        · simp at h
        · split at h
          · simp at h
          · apply ih _ _ ws' tr' h
            have hpa : (p == a) = false := by
              refine beq_eq_false_iff_ne.mpr fun hEq => hdir ?_
              rw [hEq]
              exact ha
            have hcall : call_for_arg a call = false := by
              unfold arg_buffer at hab
              split at hab
              · split at hab
                · cases hab
                  simpa [call_for_arg] using hpa
                · simp at hab
              · cases hab
                simpa [call_for_arg] using hpa
            simp [avoids_arg, List.all_append] at hav ⊢
            exact ⟨hav, by simp [hcall], by simp [call_for_arg], by simp [call_for_arg]⟩

/-- C1 (counterexample): the claim says the pending error is overwritten by
the outcome of each iteration's event handling regardless of event kind,
so a Resize iteration — whose handling does nothing and produces no
failure — would have to clear a pending error; in the code a Resize event
leaves the whole state, pending error included, untouched. -/
theorem resize_keeps_pending_error_cex :
    Application.wait_for_event handle_noop app_err Event.Resize = app_err
      ∧ app_err.error = some ("boom") :=
  ⟨rfl, rfl⟩

/-- C1 (amended): the pending error is overwritten — never accumulated —
by the outcome of Key-event input handling: a failure returned by
`handle_input` becomes the new pending error and a success clears it,
regardless of what was pending before; Resize and OpenModeIndexComplete
iterations leave the pending error unchanged. -/
theorem pending_error_per_event
    (handle_input : Application → Application × Option String) (app : Application) :
    (∀ k : KeyInput,
        (Application.wait_for_event handle_input app (Event.Key k)).error
          = (handle_input { app with view := { last_key := some k } }).snd)
  ∧ (Application.wait_for_event handle_input app Event.Resize).error = app.error
  ∧ ∀ index : Index,
      (Application.wait_for_event handle_input app (Event.OpenModeIndexComplete index)).error
        = app.error := by
  refine ⟨fun k => rfl, rfl, fun index => ?_⟩
  unfold Application.wait_for_event
  cases happ : app.mode <;> simp only [happ]

/-- C2: on a single render (with the status-line presenter available), a
drawing failure is displayed and takes precedence over any pending
event-handling error for that frame; if drawing succeeds the pending
error, if any, is displayed; if neither exists no error is displayed. -/
theorem render_display_priority (penv : PresenterEnv) (app : Application) :
    Application.render penv (Except.ok ()) app
      = match Application.present penv app with
        | Except.error e => RenderResult.drew (some e)
        | Except.ok _ => RenderResult.drew app.error := by
  unfold Application.render render_error
  cases hp : Application.present penv app <;> cases he : app.error <;> simp [hp, he]

/-- C3 (counterexample): the claim says a render never raises a fatal
failure, including the path where the failure itself is rendered; but
`render_error` calls `view.build_presenter().unwrap()`, so when drawing
fails and building a presenter also fails, the render panics instead of
degrading to a status-line message. -/
theorem render_abort_cex :
    Application.render penv_bad_normal (Except.error ("terminal gone")) app0
      = RenderResult.panicked :=
  rfl

/-- C3 (amended): provided the view can build a presenter, the render step
never raises a fatal failure for any application state and active mode:
every drawing failure is degraded to a drawn frame (with the failure shown
in the status line). -/
theorem render_no_fatal_with_presenter (penv : PresenterEnv) (app : Application) :
    ∃ shown, Application.render penv (Except.ok ()) app = RenderResult.drew shown := by
  unfold Application.render render_error
  cases hp : Application.present penv app
  · exact ⟨_, rfl⟩
  · cases he : app.error <;> exact ⟨_, rfl⟩

/-- C8: routing an OpenModeIndexComplete event while the active mode is
not Open produces no observable state change — mode, workspace, clipboard,
pending error and last key are all unchanged — and no error. -/
theorem index_complete_ignored_when_not_open
    (handle_input : Application → Application × Option String)
    (app : Application) (index : Index)
    (h : app.mode.is_open = false) :
    Application.wait_for_event handle_input app (Event.OpenModeIndexComplete index) = app := by
  unfold Application.wait_for_event
  cases happ : app.mode
  case Open m => rw [happ] at h; simp [Mode.is_open] at h
  all_goals simp only [happ]

/-- C8 (witness): a concrete Normal-mode state absorbs an indexing
completion unchanged. -/
theorem index_complete_ignored_witness :
    Application.wait_for_event handle_noop app0
        (Event.OpenModeIndexComplete { paths := ["p"] }) = app0 :=
  index_complete_ignored_when_not_open handle_noop app0 { paths := ["p"] } rfl

/-- C10: the mode identity query returns a static label for every mode
variant except Exit — the one variant with no label, for which it returns
none — and for the five query-capable modes the label depends on whether
the mode is accepting free-text input: Search uses "search_insert" /
"search" while Command, SymbolJump, Open and Theme use
"search_select_insert" / "search_select". -/
theorem mode_str_labels :
    (∀ app : Application, app.mode_str = none ↔ app.mode = Mode.Exit)
  ∧ (∀ (app : Application) (m : CommandMode), app.mode = Mode.Command m →
      app.mode_str = some (if m.insert_mode then "search_select_insert" else "search_select"))
  ∧ (∀ (app : Application) (m : SymbolJumpMode), app.mode = Mode.SymbolJump m →
      app.mode_str = some (if m.insert_mode then "search_select_insert" else "search_select"))
  ∧ (∀ (app : Application) (m : OpenMode), app.mode = Mode.Open m →
      app.mode_str = some (if m.insert_mode then "search_select_insert" else "search_select"))
  ∧ (∀ (app : Application) (m : ThemeMode), app.mode = Mode.Theme m →
      app.mode_str = some (if m.insert_mode then "search_select_insert" else "search_select"))
  ∧ (∀ (app : Application) (m : SearchMode), app.mode = Mode.Search m →
      app.mode_str = some (if m.insert_mode then "search_insert" else "search")) := by
  refine ⟨?_, ?_, ?_, ?_, ?_, ?_⟩
  · intro app
    cases happ : app.mode <;> simp [Application.mode_str, happ] <;> split <;> simp
  · intro app m h; cases hm : m.insert_mode <;> simp [Application.mode_str, h, hm]
  · intro app m h; cases hm : m.insert_mode <;> simp [Application.mode_str, h, hm]
  · intro app m h; cases hm : m.insert_mode <;> simp [Application.mode_str, h, hm]
  · intro app m h; cases hm : m.insert_mode <;> simp [Application.mode_str, h, hm]
  · intro app m h; cases hm : m.insert_mode <;> simp [Application.mode_str, h, hm]

/-- C9: Exit is terminal for the run loop — the loop checks the mode after
routing each event, a normal termination only happens when that check
observes Exit, and as soon as the check observes Exit the loop stops with
all later events unprocessed. -/
theorem exit_terminates_run :
    (∀ (handle_input : Application → Application × Option String) (app : Application)
        (events : List Event) (final : Application) (remaining : List Event),
        Application.run handle_input app events = Except.ok (final, remaining) →
        final.mode = Mode.Exit)
  ∧ (∀ (handle_input : Application → Application × Option String) (app : Application)
        (e : Event) (rest : List Event),
        (Application.wait_for_event handle_input app e).mode = Mode.Exit →
        Application.run handle_input app (e :: rest)
          = Except.ok (Application.wait_for_event handle_input app e, rest)) := by
  constructor
  · intro hi app events
    induction events generalizing app with
    | nil =>
      intro final remaining h
      rw [Application.run] at h
      simp at h
    | cons e rest ih =>
      intro final remaining h
      rw [Application.run] at h
      split at h
      next hmode =>
        cases h
        exact hmode
      next =>
        exact ih _ final remaining h
  · intro hi app e rest h
    rw [Application.run, h]

/-- C9 (witness): with a command dispatch that switches to Exit, the loop
consumes exactly the one key event and leaves the resize event queued. -/
theorem exit_terminates_run_witness :
    Application.run handle_exit app0 [Event.Key { code := 0 }, Event.Resize]
      = Except.ok
          (Application.wait_for_event handle_exit app0 (Event.Key { code := 0 }),
            [Event.Resize]) :=
  exit_terminates_run.2 handle_exit app0 (Event.Key { code := 0 }) [Event.Resize] rfl

/-- C7 (counterexample): the claim says construction fails exactly when
the rendering surface cannot be created or the Session cannot be
resolved; but `Application::new` also contains
`Repository::discover(&env::current_dir()?)` (line 74), so a failing
working-directory query fails construction even though the view and the
workspace both succeeded here. -/
theorem construction_cwd_failure_cex :
    Application.new env_cwd_fail ["e"] = Except.error ("getcwd failed")
      ∧ env_cwd_fail.view_new = Except.ok ()
      ∧ create_workspace env_cwd_fail.boot ["e"]
          = Except.ok ({ path := "h", buffers := [], current := none },
              [BootCall.load_syntaxes_call, BootCall.link_syntaxes_call]) :=
  ⟨rfl, rfl, rfl⟩

/-- C7 (amended): construction succeeds exactly when the view (rendering
surface) can be created, the workspace (Session) can be resolved, and the
working-directory query made for repository discovery succeeds; a
preferences load failure never fails construction, the built-in defaults
being used instead, and a failed repository discovery itself is not an
error — it yields an absent repository handle. -/
theorem construction_failure_modes (env : AppEnv) (args : List String) :
    ((∃ app, Application.new env args = Except.ok app)
      ↔ env.view_new = Except.ok ()
        ∧ (∃ w, create_workspace env.boot args = Except.ok w)
        ∧ ∃ d, env.current_dir = Except.ok d)
  ∧ (∀ app, Application.new env args = Except.ok app →
      (∀ d, env.current_dir = Except.ok d →
        app.repository = (env.discover_repository d).toOption)
      ∧ app.error = none
      ∧ app.preferences = init_preferences env
      ∧ ∀ e, env.load_preferences = Except.error e →
          app.preferences = Preferences.new none) := by
  cases hv : env.view_new with
  | error e =>
    constructor
    · simp [Application.new, hv]
    · intro app h
      rw [Application.new] at h
      simp [hv] at h
  | ok u =>
    cases u
    cases hw : create_workspace env.boot args with
    | error e2 =>
      constructor
      · simp [Application.new, hv, hw]
      · intro app h
        rw [Application.new] at h
        simp [hv, hw] at h
    | ok w =>
      obtain ⟨ws, tr⟩ := w
      cases hd : env.current_dir with
      | error e3 =>
        constructor
        · simp [Application.new, hv, hw, hd]
        · intro app h
          rw [Application.new] at h
          simp [hv, hw, hd] at h
      | ok d =>
        constructor
        · simp [Application.new, hv, hw, hd]
        · intro app h
          rw [Application.new] at h
          simp only [hv, hw, hd] at h
          cases h
          refine ⟨fun d' hd' => ?_, rfl, rfl, fun e hp => ?_⟩
          · cases hd'
            rfl
          · simp [init_preferences, hp]

/-- C4: when the first path argument names an existing directory, the
session root becomes that directory's canonicalized form and bootstrap
never issues a buffer request (open or create) for that argument. -/
theorem dir_arg_sets_root (env : BootEnv) (exe a : String) (rest : List String)
    (c : String) (ws : Workspace) (tr : List BootCall)
    (ha : env.fs.is_dir a = true)
    (hc : env.fs.canonicalize a = Except.ok c)
    (h : create_workspace env (exe :: a :: rest) = Except.ok (ws, tr)) :
    ws.path = c ∧ avoids_arg a tr = true := by
  have hch : chdir_target env (a :: rest) = Except.ok c := by
    simp [chdir_target, ha, hc]
  simp only [create_workspace, List.drop_succ_cons, List.drop_zero, hch] at h
  split at h
  · simp at h
  · split at h
    · simp at h
    · split at h
      · simp at h
      · split at h
        next =>
          exact ⟨open_file_args_root env rest _ _ ws tr h,
            open_file_args_avoids env a ha rest _ _ ws tr h rfl⟩
        next =>
          rw [open_file_args, if_pos ha] at h
          exact ⟨open_file_args_root env rest _ _ ws tr h,
            open_file_args_avoids env a ha rest _ _ ws tr h rfl⟩

/-- C4 (witness): bootstrapping with the one existing directory "d" as the
first argument roots the workspace at its canonical form and records no
buffer request for it. -/
theorem dir_arg_sets_root_witness :
    ({ path := "d", buffers := [], current := none } : Workspace).path = "d"
      ∧ avoids_arg "d" [BootCall.load_syntaxes_call, BootCall.link_syntaxes_call] = true :=
  dir_arg_sets_root boot0 "e" "d" [] "d"
    { path := "d", buffers := [], current := none }
    [BootCall.load_syntaxes_call, BootCall.link_syntaxes_call] rfl rfl rfl

/-- C5: a file argument that names neither an existing file nor an
existing directory never errors: processing it reduces to processing the
remaining arguments after appending a new buffer with empty content whose
path is the argument itself when absolute and the session root joined with
the argument otherwise; the appended buffer is marked current. -/
theorem missing_arg_new_buffer (env : BootEnv) (ws : Workspace) (tr : List BootCall)
    (rest : List String) (m : String)
    (hd : env.fs.is_dir m = false)
    (hf : env.fs.is_file m = false)
    (hi : env.init_buffer
        { path := some (if is_absolute m then m else path_join ws.path m), data := "" }
        = Except.ok ()) :
    open_file_args env ws tr (m :: rest)
      = open_file_args env
          (ws.add_buffer
            { path := some (if is_absolute m then m else path_join ws.path m), data := "" })
          (tr ++ [BootCall.new_buffer_call m (if is_absolute m then m else path_join ws.path m),
                  BootCall.add_buffer_call, BootCall.init_buffer_call]) rest
    ∧ (ws.add_buffer
          { path := some (if is_absolute m then m else path_join ws.path m), data := "" }).buffers
        = ws.buffers
          ++ [{ path := some (if is_absolute m then m else path_join ws.path m), data := "" }]
    ∧ (ws.add_buffer
          { path := some (if is_absolute m then m else path_join ws.path m), data := "" }).current_buffer
        = some { path := some (if is_absolute m then m else path_join ws.path m), data := "" } := by
  refine ⟨?_, rfl, add_buffer_current ws _⟩
  have hb : arg_buffer env ws.path m
      = Except.ok
          ({ path := some (if is_absolute m then m else path_join ws.path m), data := "" },
            BootCall.new_buffer_call m (if is_absolute m then m else path_join ws.path m)) := by
    unfold arg_buffer
    rw [if_neg (by simp [hd, hf])]
  rw [open_file_args, if_neg (by simp [hd]), hb]
  simp only [add_buffer_current, hi]

/-- C5 (witness): the missing relative argument "m" becomes a new empty
buffer at "r/m", appended and marked current, and its processing step
introduces no error. -/
theorem missing_arg_new_buffer_witness :
    open_file_args boot0 ws0 [] (["m"] : List String)
      = open_file_args boot0
          (ws0.add_buffer
            { path := some (if is_absolute "m" then "m" else path_join ws0.path "m"), data := "" })
          ([] ++ [BootCall.new_buffer_call "m"
                    (if is_absolute "m" then "m" else path_join ws0.path "m"),
                  BootCall.add_buffer_call, BootCall.init_buffer_call]) []
    ∧ (ws0.add_buffer
          { path := some (if is_absolute "m" then "m" else path_join ws0.path "m"), data := "" }).buffers
        = ws0.buffers
          ++ [{ path := some (if is_absolute "m" then "m" else path_join ws0.path "m"), data := "" }]
    ∧ (ws0.add_buffer
          { path := some (if is_absolute "m" then "m" else path_join ws0.path "m"), data := "" }).current_buffer
        = some { path := some (if is_absolute "m" then "m" else path_join ws0.path "m"), data := "" } :=
  missing_arg_new_buffer boot0 ws0 [] [] "m" rfl rfl rfl

/-- C6: user syntax definitions are loaded and linked before any buffer is
created — every successful bootstrap trace starts with the load and link
calls and everything after them is a buffer operation — and a failure to
load them makes bootstrap fail with the propagated (rephrased) load
error whenever the earlier steps succeeded. -/
theorem syntaxes_before_buffers :
    (∀ (env : BootEnv) (args : List String) (d sp e : String),
        chdir_target env (args.drop 1) = Except.ok d →
        env.workspace_new = Except.ok () →
        env.syntax_path = Except.ok sp →
        env.load_syntaxes sp = Except.error e →
        create_workspace env args = Except.error ("Failed to load user syntaxes: " ++ e))
  ∧ (∀ (env : BootEnv) (args : List String) (ws : Workspace) (tr : List BootCall),
        create_workspace env args = Except.ok (ws, tr) →
        ∃ d, tr = BootCall.load_syntaxes_call :: BootCall.link_syntaxes_call :: d
          ∧ ∀ x ∈ d, BootCall.buffer_op x = true) := by
  constructor
  · intro env args d sp e hch hwn hsp hle
    simp only [create_workspace, hch, hwn, hsp, hle]
  · intro env args ws tr h
    simp only [create_workspace] at h
    split at h
    · simp at h
    · split at h
      · simp at h
      · split at h
        · simp at h
        · split at h
          · simp at h
          · split at h <;>
            · obtain ⟨d, hd, hall⟩ := open_file_args_trace env _ _ _ ws tr h
              exact ⟨d, by simpa using hd, hall⟩

/-- C6 (witness): a failing syntax-definition load aborts a concrete
bootstrap with the propagated error. -/
theorem syntaxes_before_buffers_witness :
    create_workspace boot_bad_syntaxes ["e", "m"]
      = Except.error ("Failed to load user syntaxes: corrupt") :=
  syntaxes_before_buffers.1 boot_bad_syntaxes ["e", "m"] "h" "s" "corrupt" rfl rfl rfl rfl

end Amp
